import Mathlib

/-!
Verification of the retry tool (retry.c) against its natural-language
specification.  The C source is shallowly embedded below: `status_match`
models the criteria evaluator (retry.c:182-240), the `pump_*` definitions
model the non-blocking I/O pump loop (retry.c:242-366), and `run_step` /
`retry_run` model the parent-side retry loop of `main` (retry.c:439-589).
C strings are `List Char` (NULL pointers become `none`), byte buffers are
`List Nat`, and the outcomes of the `poll`/`read`/`write`/`waitpid` system
calls are supplied by explicit environment records.
-/

/-- Chunk size for reads and buffer growth, retry.c:48 (100 * 1024). -/
def BUFFER_SIZE : Nat := 100 * 1024

/-- Value of a list of decimal digit characters, as computed by `strtol`
on a string whose leading characters are exactly these digits.  `strtol`
overflow clamping at LONG_MAX is not modelled (exit statuses are small). -/
def digitsToNat (ds : List Char) : Nat :=
  ds.foldl (fun a c => a * 10 + (c.toNat - 48)) 0

/-- The current token of the criteria string: the characters before the
first comma, as delimited via `strchr` at retry.c:192-198. -/
def tok_of (criteria : List Char) : List Char :=
  criteria.takeWhile (fun c => c ≠ ',')

/-- Continuation of the `status_match` loop body after the first integer
did not end the token, retry.c:219-236: expect a dash, then a digit, then
the second integer of the range; the final pair of checks either returns
the range comparison, returns -1, or falls through (`none`) to the
`criteria = next` continue at retry.c:236.  `rest1` is where `strtol`
left `endptr` after the first integer; `r1` is that integer's value. -/
def num_tail (status r1 : Int) (rest1 : List Char) : Option Int :=
  match rest1 with
  | [] => some (-1)
  | c2 :: rest2 =>
    if c2 ≠ '-' then some (-1)
    else
      match rest2 with
      | [] => some (-1)
      | c3 :: _ =>
        if ¬ c3.isDigit then some (-1)
        else
          if rest2.dropWhile Char.isDigit = [] ∨
              (rest2.dropWhile Char.isDigit).head? = some ',' then
            some (if r1 ≤ status ∧
                status ≤ (digitsToNat (rest2.takeWhile Char.isDigit) : Int)
              then 1 else 0)
          else if rest2.dropWhile Char.isDigit ≠ [] ∧
              (rest2.dropWhile Char.isDigit).head? ≠ some ',' then
            some (-1)
          else
            none

/-- One execution of the body of the `while (criteria)` loop of
`status_match`, retry.c:186-237.  `strncmp(criteria, lit, len)` with
`len` the token length is zero exactly when the token is a prefix of
`lit`, because the token contains no NUL and comparison stops at the NUL
of `lit` (retry.c:200-208).  `strtol` is reached only after a
leading-digit check (retry.c:210-212), so it reduces to the maximal run
of decimal digits; its overflow clamping at LONG_MAX is not modelled.
Returns `some r` when the body executes `return r`; returns `none` when
the body falls through to the `criteria = next` continue at
retry.c:236. -/
def tokResult (status : Int) (criteria : List Char) : Option Int :=
  if (tok_of criteria).isPrefixOf "success".toList
      || (tok_of criteria).isPrefixOf "true".toList then
    some (if status = 0 then 1 else 0)
  else if (tok_of criteria).isPrefixOf "fail".toList
      || (tok_of criteria).isPrefixOf "false".toList then
    some (if status ≠ 0 then 1 else 0)
  else
    match criteria with
    | [] => some (-1)
    | c :: _ =>
      if ¬ c.isDigit then some (-1)
      else
        if criteria.dropWhile Char.isDigit = [] ∨
            (criteria.dropWhile Char.isDigit).head? = some ',' then
          some (if status = (digitsToNat (criteria.takeWhile Char.isDigit) : Int)
            then 1 else 0)
        else
          num_tail status (digitsToNat (criteria.takeWhile Char.isDigit) : Int)
            (criteria.dropWhile Char.isDigit)

/-- Criteria evaluator `status_match`, retry.c:182-240.  A NULL criteria
pointer (`none`) skips the loop and returns 1 (retry.c:239).  Otherwise
the loop body runs on the string; every branch of the body returns
(`tokResult_isSome` below), so the body never re-enters the loop through
the `criteria = next` continue at retry.c:236, and a single body
evaluation decides the result.  The `none` fallback 1 mirrors the
trailing `return 1` and is provably unreachable. -/
def status_match (status : Int) : Option (List Char) → Int
  | none => 1
  | some criteria =>
    match tokResult status criteria with
    | some r => r
    | none => 1

/-- One direction of piped data, `pump_t`, retry.c:62-70.  `buf` holds the
`len` valid bytes at `base` (so `len = buf.length`); the buffer's spare
capacity and `realloc` growth are not modelled (allocation failure is an
environment event). -/
structure pump_t where
  buf : List Nat
  offset : Nat
  read_closed : Bool
  write_closed : Bool
  exit_on_close : Bool
  send_eof : Bool
deriving DecidableEq

/-- The two streams of the pump set, `pump_t pumps[PUMPS]`, retry.c:375:
index STDIN_FD (invoker stdin to child stdin) and index STDOUT_FD (child
stdout to real stdout). -/
structure pumps_t where
  stdin : pump_t
  stdout : pump_t
deriving DecidableEq

/-- Read side armed for POLLIN, retry.c:255-258. -/
def armed_read (p : pump_t) : Bool := !p.read_closed

/-- Write side armed for POLLOUT, retry.c:260-264. -/
def armed_write (p : pump_t) : Bool :=
  !p.write_closed && (p.send_eof || decide (p.buf.length > p.offset))

/-- Early-exit condition of one stream, retry.c:266-269. -/
def early_exit (p : pump_t) : Bool := p.read_closed && p.exit_on_close

/-- The arming pass of retry.c:250-275 decides to leave the loop: either
a stream with `exit_on_close` has its read side closed (retry.c:266-269,
the break skips the rest of the pass), or nothing is armed so `stay`
stays 0 (retry.c:273-275). -/
def pump_exit_now (ps : pumps_t) : Bool :=
  early_exit ps.stdin || early_exit ps.stdout ||
    (!(armed_read ps.stdin || armed_write ps.stdin) &&
     !(armed_read ps.stdout || armed_write ps.stdout))

/-- Environment for one stream in one poll round: which revents bits poll
reported and what the read/write system calls returned.  POLLIN/POLLOUT
can be reported only for a descriptor that was armed for them; the
POLLHUP/POLLERR/POLLNVAL bits are unsolicited.  `read_res`: `none` is a
read error (negative return), `some []` is end of file (zero return),
`some d` is `d` bytes read.  `write_res`: `none` is a write error,
`some n` accepts up to `n` bytes (`write` never accepts more than the
`len - offset` bytes offered). -/
structure stream_env where
  pollin : Bool
  alloc_fail : Bool
  read_res : Option (List Nat)
  read_hup : Bool
  pollout : Bool
  write_res : Option Nat
  write_err : Bool
deriving DecidableEq

/-- Environment for one iteration of the pump loop: one `poll` outcome. -/
structure pump_env where
  poll_fail : Bool
  stdin_ev : stream_env
  stdout_ev : stream_env
deriving DecidableEq

/-- POLLIN handling for one stream, retry.c:287-317: grow the buffer
(`realloc`, which can fail fatally), then read up to BUFFER_SIZE bytes;
a negative return is fatal (`none`), zero marks the source closed,
positive appends to the buffer. -/
def read_phase (p : pump_t) (armedR : Bool) (e : stream_env) : Option pump_t :=
  if armedR && e.pollin then
    if e.alloc_fail then none
    else match e.read_res with
      | none => none
      | some [] => some { p with read_closed := true, send_eof := true }
      | some d => some { p with buf := p.buf ++ d.take BUFFER_SIZE }
  else some p

/-- POLLHUP/POLLERR/POLLNVAL on the read descriptor, retry.c:319-326. -/
def hup_phase (p : pump_t) (e : stream_env) : pump_t :=
  if e.read_hup then { p with read_closed := true, send_eof := true } else p

/-- POLLOUT handling for one stream, retry.c:328-352: write the pending
slice `buf[offset:len]`, advance `offset` by the bytes accepted, and mark
the write side closed once the source is closed and everything pending
has been delivered (retry.c:346-350).  Also returns the bytes delivered
to the sink in this step. -/
def write_phase (p : pump_t) (armedW : Bool) (e : stream_env) :
    Option (pump_t × List Nat) :=
  if armedW && e.pollout then
    match e.write_res with
    | none => none
    | some n =>
      let num := min n (p.buf.length - p.offset)
      let out := (p.buf.drop p.offset).take num
      let p1 := { p with offset := p.offset + num }
      let p2 :=
        if p1.read_closed && decide (p1.offset = p1.buf.length) then
          { p1 with write_closed := true }
        else p1
      some (p2, out)
  else some (p, [])

/-- POLLERR/POLLNVAL on the write descriptor, retry.c:354-359. -/
def werr_phase (p : pump_t) (e : stream_env) : pump_t :=
  if e.write_err then { p with write_closed := true } else p

/-- Processing of one stream inside one iteration of the event loop,
retry.c:287-359, in source order: read, read-side hangup, write,
write-side error.  `none` is a fatal pump failure (read error, write
error or allocation failure); otherwise the updated stream and the bytes
delivered to its sink. -/
def stream_step (p : pump_t) (armedR armedW : Bool) (e : stream_env) :
    Option (pump_t × List Nat) :=
  match read_phase p armedR e with
  | none => none
  | some p1 =>
    match write_phase (hup_phase p1 e) armedW e with
    | none => none
    | some (p2, out) => some (werr_phase p2 e, out)

/-- Result of one iteration of the `while (1)` pump loop. -/
inductive pump_step_res where
  /-- The arming pass left the loop; `pump` returns 0 with this state. -/
  | done : pumps_t → pump_step_res
  /-- `pump` returns -1; the bytes delivered before the failure. -/
  | fail : List Nat → List Nat → pump_step_res
  /-- The loop iterates again with this state and these deliveries. -/
  | next : pumps_t → List Nat → List Nat → pump_step_res
deriving DecidableEq

/-- One iteration of the pump loop, retry.c:247-363: the arming pass with
its exit checks, then `poll` (whose failure is fatal, retry.c:277-283),
then per-stream processing with the armed sets of the pre-poll state. -/
def pump_step (ps : pumps_t) (e : pump_env) : pump_step_res :=
  if pump_exit_now ps then .done ps
  else if e.poll_fail then .fail [] []
  else
    match stream_step ps.stdin (armed_read ps.stdin) (armed_write ps.stdin)
        e.stdin_ev with
    | none => .fail [] []
    | some (p0, out0) =>
      match stream_step ps.stdout (armed_read ps.stdout)
          (armed_write ps.stdout) e.stdout_ev with
      | none => .fail out0 []
      | some (p1, out1) => .next ⟨p0, p1⟩ out0 out1

/-- Outcome of a whole `pump` call, retry.c:242-366. -/
inductive pump_outcome where
  /-- `pump` returned 0: final state and all bytes delivered to the child
  stdin sink and the real stdout sink. -/
  | ok : pumps_t → List Nat → List Nat → pump_outcome
  /-- `pump` returned -1 after delivering these bytes. -/
  | io_fail : List Nat → List Nat → pump_outcome
deriving DecidableEq

/-- A whole `pump` call under a list of poll-round environments; `none`
when the loop has not terminated within the supplied rounds. -/
def pump_run : pumps_t → List pump_env → Option pump_outcome
  | ps, [] => if pump_exit_now ps then some (.ok ps [] []) else none
  | ps, e :: es =>
    match pump_step ps e with
    | .done ps1 => some (.ok ps1 [] [])
    | .fail o0 o1 => some (.io_fail o0 o1)
    | .next ps1 o0 o1 =>
      match pump_run ps1 es with
      | none => none
      | some (.ok f d0 d1) => some (.ok f (o0 ++ d0) (o1 ++ d1))
      | some (.io_fail d0 d1) => some (.io_fail (o0 ++ d0) (o1 ++ d1))

/-- Retry configuration consumed by the main loop: the mutually exclusive
until/while criteria strings, retry.c:371-372 and 406-420 (`none` is the
NULL pointer).  The delay and message only shape the stderr notice and
the sleep; they do not affect control flow or the modelled outputs. -/
structure run_config where
  repeat_until : Option (List Char)
  repeat_while : Option (List Char)
deriving DecidableEq

/-- Classification of one `waitpid` reap, retry.c:519-586. -/
inductive wait_res where
  /-- WIFEXITED with this WEXITSTATUS. -/
  | exited : Int → wait_res
  /-- WIFSIGNALED with this WTERMSIG. -/
  | signaled : Int → wait_res
  /-- Reap succeeded but the status is neither an exit nor a signal,
  retry.c:581-586. -/
  | other : wait_res
  /-- `waitpid` returned -1 with errno other than EINTR, retry.c:519-534. -/
  | wait_fail : wait_res
deriving DecidableEq

/-- Environment for one attempt: whether pipe/fork creation failed
(retry.c:443-463), the poll rounds of the attempt's pump, and the reap
outcome. -/
structure attempt_env where
  spawn_fail : Bool
  pump_envs : List pump_env
  wait : wait_res
deriving DecidableEq

/-- Per-iteration preparation of the pump set before the pump runs,
retry.c:500-504: forbid writes to the real stdout for now and make the
child's stdout closing terminate the pump.  This is everything `main`
does to the pump state between the top of the loop and the `pump` call;
in particular the output stream's `read_closed`, `offset` and `buf` are
left as the previous attempt left them. -/
def attempt_prep (ps : pumps_t) : pumps_t :=
  { ps with stdout := { ps.stdout with write_closed := true, exit_on_close := true } }

/-- The whole pump-state transformation between the end of one attempt's
pump and the start of the next attempt's pump: rewind the stdin delivery
cursor (retry.c:516, the only inter-attempt reset) and then the next
iteration's preparation (retry.c:501 and 504). -/
def between_attempts (f : pumps_t) : pumps_t :=
  attempt_prep { f with stdin := { f.stdin with offset := 0 } }

/-- The stop decision of retry.c:540-542, with C truthiness: repeat-until
stops when `status_match` is nonzero, repeat-while stops when it is zero,
and with neither configured (unreachable after option parsing) a nonzero
status stops. -/
def stop_cond (cfg : run_config) (code : Int) : Bool :=
  (match cfg.repeat_until with
   | some u => decide (status_match code (some u) ≠ 0)
   | none => false)
  || (match cfg.repeat_while with
      | some w => decide (status_match code (some w) = 0)
      | none => false)
  || (match cfg.repeat_until, cfg.repeat_while with
      | none, none => decide (code ≠ 0)
      | _, _ => false)

/-- Result of one iteration of the retry loop. -/
inductive step_out where
  /-- The run ends with this process exit code, after writing these bytes
  to the real standard output. -/
  | finish : Int → List Nat → step_out
  /-- The run retries with this pump state, remaining times and last
  status, after writing these bytes to the real standard output. -/
  | retry : pumps_t → Int → Int → List Nat → step_out
deriving DecidableEq

/-- One iteration of the `while (times)` loop of `main` (parent side),
retry.c:439-589: spawn (fatal on failure, exit code 1), prepare and run
the pump (fatal on failure, exit code 1), rewind the stdin cursor
(retry.c:516), reap, then decide.  On a matching exit the captured child
stdout (`base`, `len`) is written once to the real stdout (retry.c:545);
on a non-matching exit it goes to stderr (not tracked) and the attempt
budget is decremented when positive (retry.c:567-569); a signal ends the
run with signum + 128 (retry.c:574-579); an unclassifiable status ends it
with EX_OSERR = 71 (retry.c:581-586); a failed reap ends it with
EXIT_FAILURE = 1 (retry.c:527-534).  `none` when the pump does not
terminate within its environment. -/
def run_step (cfg : run_config) (ps : pumps_t) (times : Int)
    (env : attempt_env) : Option step_out :=
  if env.spawn_fail then some (.finish 1 [])
  else
    match pump_run (attempt_prep ps) env.pump_envs with
    | none => none
    | some (.io_fail _ d1) => some (.finish 1 d1)
    | some (.ok ps1 _ d1) =>
      let ps2 := { ps1 with stdin := { ps1.stdin with offset := 0 } }
      match env.wait with
      | .wait_fail => some (.finish 1 d1)
      | .exited code =>
        if stop_cond cfg code then
          some (.finish code (d1 ++ ps2.stdout.buf))
        else
          some (.retry ps2 (if times > 0 then times - 1 else times) code d1)
      | .signaled n => some (.finish (n + 128) d1)
      | .other => some (.finish 71 d1)

/-- The retry loop of `main`, retry.c:439-589, from a given pump state,
remaining times and last status, under a list of per-attempt
environments.  Returns the process exit code and every byte written to
the real standard output, or `none` when an attempt's pump does not
terminate within its environment.  The loop runs while `times` is
nonzero (C truthiness; -1 is the unlimited sentinel). -/
def retry_run (cfg : run_config) :
    pumps_t → Int → Int → List attempt_env → Option (Int × List Nat)
  | _, times, status, [] => if times = 0 then some (status, []) else none
  | ps, times, status, env :: envs =>
    if times = 0 then some (status, [])
    else
      match run_step cfg ps times env with
      | none => none
      | some (.finish code out) => some (code, out)
      | some (.retry ps1 times1 status1 out) =>
        match retry_run cfg ps1 times1 status1 envs with
        | none => none
        | some (code, rest) => some (code, out ++ rest)

/-- The zero-initialized pump pair of retry.c:375. -/
def pumps_init : pumps_t :=
  ⟨⟨[], 0, false, false, false, false⟩, ⟨[], 0, false, false, false, false⟩⟩

/-- Range token split per the specification grammar: a nonempty run of
decimal digits, a dash, and a nonempty run of decimal digits. -/
def rangeSplit (t : List Char) : Option (Nat × Nat) :=
  match t.dropWhile Char.isDigit with
  | '-' :: d2 =>
    if t.takeWhile Char.isDigit ≠ [] ∧ d2 ≠ [] ∧ d2.all Char.isDigit then
      some (digitsToNat (t.takeWhile Char.isDigit), digitsToNat d2)
    else none
  | _ => none

/-- Single-token criteria grammar, written from the specification's words
for claim C3 with the literal matching amended to prefix matching: a
token that is a prefix of the literal success or true (the empty token
and the full literals included) gives Match iff the status is 0; a prefix
of fail or false gives Match iff the status is nonzero; a nonempty
all-digit token gives Match iff the status equals its value; a
digits-dash-digits token gives Match iff the status lies in the inclusive
range; any other token is Invalid. -/
def spec_single_token (status : Int) (t : List Char) : Int :=
  if t.isPrefixOf "success".toList || t.isPrefixOf "true".toList then
    if status = 0 then 1 else 0
  else if t.isPrefixOf "fail".toList || t.isPrefixOf "false".toList then
    if status ≠ 0 then 1 else 0
  else if t ≠ [] ∧ t.all Char.isDigit then
    if status = (digitsToNat t : Int) then 1 else 0
  else
    match rangeSplit t with
    | some (lo, hi) =>
      if (lo : Int) ≤ status ∧ status ≤ (hi : Int) then 1 else 0
    | none => -1

/-- Stream environment in which poll reported nothing for the stream. -/
def ev_none : stream_env := ⟨false, false, some [], false, false, some 0, false⟩

/-- Poll round in which the child's stdout side hangs up with no data and
nothing else happens. -/
def pe_hup : pump_env := ⟨false, ev_none, { ev_none with read_hup := true }⟩

/-- Pump state after a first attempt under `pe_hup`: the child produced
no output, the output stream saw the hangup and was marked drained. -/
def f_hup : pumps_t :=
  ⟨⟨[], 0, false, false, false, false⟩, ⟨[], 0, true, true, true, true⟩⟩

/-- The default configuration: repeat until success. -/
def cfg_us : run_config := ⟨some "success".toList, none⟩

/-- Poll round of a first attempt whose child writes the byte 65 to its
stdout and closes it, while the invoker's stdin hangs up. -/
def pe_out65 : pump_env :=
  ⟨false, { ev_none with read_hup := true },
   { ev_none with pollin := true, read_res := some [65], read_hup := true }⟩

/-- Pump state after the first attempt under `pe_out65`: byte 65 captured
from the child, both sides of the output stream closed. -/
def f_out65 : pumps_t :=
  ⟨⟨[], 0, true, false, false, true⟩, ⟨[65], 0, true, true, true, true⟩⟩

/-- Poll round in which the child's stdout has the byte 66 available. -/
def pe_offer66 : pump_env :=
  ⟨false, ev_none, { ev_none with pollin := true, read_res := some [66] }⟩

/-- First attempt of the C5 scenario: child writes byte 65 and exits 1. -/
def env_fail65 : attempt_env := ⟨false, [pe_out65], .exited 1⟩

/-- Second attempt of the C5 scenario: child has byte 66 to offer and
exits 0. -/
def env_ok66 : attempt_env := ⟨false, [pe_offer66], .exited 0⟩

/-- Attempt whose reap fails with a non-EINTR error. -/
def env_waitfail : attempt_env := ⟨false, [pe_hup], .wait_fail⟩

/-- Attempt whose child is killed by signal 9. -/
def env_sig9 : attempt_env := ⟨false, [pe_hup], .signaled 9⟩

/-- Pump pair for the C4 counterexample: the stdin stream holds one
pending undelivered byte with both sides open. -/
def c4_ps : pumps_t :=
  ⟨⟨[7], 0, false, false, false, false⟩, ⟨[], 0, false, true, true, false⟩⟩

/-- Poll round for the C4 counterexample: POLLERR on the stdin stream's
write descriptor, nothing else. -/
def c4_env : pump_env := ⟨false, { ev_none with write_err := true }, ev_none⟩

/-- State after `c4_env`: the stdin stream's write side is closed with
its byte still undelivered and its read side still open. -/
def c4_ps1 : pumps_t :=
  ⟨⟨[7], 0, false, true, false, false⟩, ⟨[], 0, false, true, true, false⟩⟩

/-- A pump invocation on a state whose arming pass already decides to
leave returns 0 at once, with the state untouched and nothing delivered,
whatever the environment would have offered. -/
theorem pump_run_of_exit_now (ps : pumps_t) (envs : List pump_env)
    (h : pump_exit_now ps = true) : pump_run ps envs = some (.ok ps [] []) := by
  cases envs with
  | nil => simp [pump_run, h]
  | cons e es => simp [pump_run, pump_step, h]

/-- Claim C9: whenever a stream of the pump set has its read side closed
and `exit_on_close` set, the pump loop terminates immediately with
success (return value 0), leaving the state untouched and delivering
nothing, regardless of the other stream's pending buffered data or armed
descriptors and regardless of the environment. -/
theorem C9_early_exit_terminates (ps : pumps_t) (envs : List pump_env)
    (h : (ps.stdin.read_closed = true ∧ ps.stdin.exit_on_close = true) ∨
         (ps.stdout.read_closed = true ∧ ps.stdout.exit_on_close = true)) :
    pump_run ps envs = some (.ok ps [] []) := by
  apply pump_run_of_exit_now
  rcases h with ⟨h1, h2⟩ | ⟨h1, h2⟩ <;>
    simp [pump_exit_now, early_exit, h1, h2]

/-- Witness for C9 at a concrete state: the output stream is closed with
`exit_on_close` set while the stdin stream still has a pending byte and
an armed read side; the pump still exits at once. -/
theorem C9_early_exit_terminates_w :
    ((⟨⟨[7], 0, false, false, false, false⟩,
       ⟨[], 0, true, true, true, true⟩⟩ : pumps_t).stdout.read_closed = true ∧
     (⟨⟨[7], 0, false, false, false, false⟩,
       ⟨[], 0, true, true, true, true⟩⟩ : pumps_t).stdout.exit_on_close = true) ∧
    pump_run ⟨⟨[7], 0, false, false, false, false⟩, ⟨[], 0, true, true, true, true⟩⟩
      [pe_out65] = some (.ok ⟨⟨[7], 0, false, false, false, false⟩,
        ⟨[], 0, true, true, true, true⟩⟩ [] []) :=
  ⟨⟨rfl, rfl⟩,
   C9_early_exit_terminates _ [pe_out65] (Or.inr ⟨rfl, rfl⟩)⟩

/-- Claim C10: a pump invocation on a pump set in which both streams
already have `read_closed` and `write_closed` set returns immediately
with success, consuming no readiness wait and mutating no stream's
buffer, length, cursor or flags (the returned state is the input state). -/
theorem C10_closed_idempotent (ps : pumps_t) (envs : List pump_env)
    (h1 : ps.stdin.read_closed = true) (h2 : ps.stdin.write_closed = true)
    (h3 : ps.stdout.read_closed = true) (h4 : ps.stdout.write_closed = true) :
    pump_run ps envs = some (.ok ps [] []) := by
  apply pump_run_of_exit_now
  simp [pump_exit_now, early_exit, armed_read, armed_write, h1, h2, h3, h4]

/-- Witness for C10 at a concrete fully closed state that still holds
undelivered buffered bytes and arbitrary flag values elsewhere. -/
theorem C10_closed_idempotent_w :
    pump_run ⟨⟨[1, 2], 1, true, true, false, true⟩, ⟨[3], 0, true, true, true, false⟩⟩
      [pe_out65, pe_hup] =
    some (.ok ⟨⟨[1, 2], 1, true, true, false, true⟩, ⟨[3], 0, true, true, true, false⟩⟩
      [] []) :=
  C10_closed_idempotent _ [pe_out65, pe_hup] rfl rfl rfl rfl

/-- The final pair of checks of the loop body (retry.c:228-235) always
returns when applied after the second integer of a range: their
conditions are complementary, so the fall-through to the loop continue is
unreachable. -/
theorem tail_check_isSome (l : List Char) (a b : Option Int)
    (ha : a.isSome = true) (hb : b.isSome = true) :
    (if l = [] ∨ l.head? = some ',' then a
     else if l ≠ [] ∧ l.head? ≠ some ',' then b
     else none).isSome = true := by
  by_cases h : l = [] ∨ l.head? = some ','
  · rw [if_pos h]; exact ha
  · rw [if_neg h]
    have h2 : l ≠ [] ∧ l.head? ≠ some ',' := by push_neg at h; exact h
    rw [if_pos h2]; exact hb

/-- The range continuation always returns: it never falls through to the
loop continue. -/
theorem num_tail_isSome (status r1 : Int) (rest1 : List Char) :
    (num_tail status r1 rest1).isSome = true := by
  unfold num_tail
  split
  · rfl
  · split
    · rfl
    · split
      · rfl
      · split
        · rfl
        · exact tail_check_isSome _ _ _ rfl rfl

/-- Every branch of the `status_match` loop body executes a `return`: the
body never reaches the `criteria = next` continue at retry.c:236, so the
loop runs its body at most once and only the first comma-separated token
is ever examined. -/
theorem tokResult_isSome (status : Int) (criteria : List Char) :
    (tokResult status criteria).isSome = true := by
  unfold tokResult
  split
  · rfl
  · split
    · rfl
    · split
      · rfl
      · split
        · rfl
        · split
          · rfl
          · exact num_tail_isSome _ _ _

/-- Claim C2: evaluating the criteria string success,4 at exit status 4.
The code returns 0 (NoMatch), not 1 (Match): `status_match` returns the
first token's verdict and never consults later tokens, since every branch
of its loop body returns (`tokResult_isSome`).  The claim (and the tool's
own help text, retry.c:123-124: repeat until any one of the comma
separated criteria is met) requires Match. -/
theorem C2_first_token_decides :
    status_match 4 (some "success,4".toList) = 0 ∧ ((0 : Int) ≠ 1) :=
  ⟨by decide, by decide⟩

/-- Counterexample to claim C3 as stated: the single token su parses as
none of the four grammar forms of the claim, so the claim demands Invalid
(-1), but the code returns Match (1) at status 0, because the literal
comparison `strncmp(criteria, "success", len)` accepts every prefix of
the literal. -/
theorem C3_prefix_counterexample :
    status_match 0 (some "su".toList) = 1 ∧ ((1 : Int) ≠ -1) :=
  ⟨by decide, by decide⟩

/-- Any member of the suffix that dropWhile leaves is a member of the
original list. -/
theorem mem_of_mem_dropWhile {x : Char} {p : Char → Bool} {l : List Char}
    (h : x ∈ l.dropWhile p) : x ∈ l :=
  (List.dropWhile_sublist p).mem h

/-- A token whose first non-digit character is not a dash is not a range
token. -/
theorem rangeSplit_head_not_dash (t : List Char) (c2 : Char) (rest2 : List Char)
    (h : t.dropWhile Char.isDigit = c2 :: rest2) (hne : c2 ≠ '-') :
    rangeSplit t = none := by
  unfold rangeSplit
  rw [h]
  split
  · rename_i d2 heq
    exact absurd (List.cons.injEq .. ▸ heq) (by simp [hne])
  · rfl

/-- A token that does not start with a digit is not a range token: even
when it starts with the dash itself, the low bound is empty. -/
theorem rangeSplit_head_not_digit (c : Char) (cs : List Char)
    (hd : ¬ c.isDigit = true) : rangeSplit (c :: cs) = none := by
  have hdw : (c :: cs).dropWhile Char.isDigit = c :: cs := by
    rw [List.dropWhile_cons]
    simp [hd]
  have htw : (c :: cs).takeWhile Char.isDigit = [] := by
    rw [List.takeWhile_cons]
    simp [hd]
  by_cases hdash : c = '-'
  · subst hdash
    unfold rangeSplit
    rw [hdw]
    simp [htw]
  · exact rangeSplit_head_not_dash (c :: cs) c cs hdw hdash

/-- Claim C3 as amended: on every comma-free (single-token) criteria
string the code agrees with the token grammar in which the literal
matching is by prefix: a prefix of success or true gives Match (1) iff
the status is 0, a prefix of fail or false gives Match iff the status is
nonzero, a nonempty all-digit token gives Match iff the status equals its
value, a digits-dash-digits token gives Match iff the status lies in the
inclusive range, and every other token is Invalid (-1). -/
theorem C3_single_token_grammar (status : Int) (t : List Char) (hc : ',' ∉ t) :
    status_match status (some t) = spec_single_token status t := by
  have htok : tok_of t = t := by
    apply List.takeWhile_eq_self_iff.mpr
    intro x hx
    simp only [decide_eq_true_eq]
    exact fun hxe => hc (hxe ▸ hx)
  by_cases h1 : (t.isPrefixOf "success".toList || t.isPrefixOf "true".toList) = true
  · have htr : tokResult status t = some (if status = 0 then 1 else 0) := by
      unfold tokResult
      rw [htok, if_pos h1]
    have hr : spec_single_token status t = (if status = 0 then 1 else 0) := by
      unfold spec_single_token
      rw [if_pos h1]
    simp [status_match, htr, hr]
  · by_cases h2 : (t.isPrefixOf "fail".toList || t.isPrefixOf "false".toList) = true
    · have htr : tokResult status t = some (if status ≠ 0 then 1 else 0) := by
        unfold tokResult
        rw [htok, if_neg h1, if_pos h2]
      have hr : spec_single_token status t = (if status ≠ 0 then 1 else 0) := by
        unfold spec_single_token
        rw [if_neg h1, if_pos h2]
      simp [status_match, htr, hr]
    · cases t with
      | nil => exact absurd (by decide) h1
      | cons c cs =>
        by_cases hd : c.isDigit
        · rcases hD : (c :: cs).dropWhile Char.isDigit with _ | ⟨c2, rest2⟩
          · -- the whole token is digits
            have hall : ∀ x ∈ c :: cs, Char.isDigit x := List.dropWhile_eq_nil_iff.mp hD
            have htw : (c :: cs).takeWhile Char.isDigit = c :: cs :=
              List.takeWhile_eq_self_iff.mpr hall
            have htr : tokResult status (c :: cs) =
                some (if status = (digitsToNat (c :: cs) : Int) then 1 else 0) := by
              unfold tokResult
              rw [htok, if_neg h1, if_neg h2]
              simp [hd, hD, htw]
            have hall2 : (c :: cs).all Char.isDigit = true := List.all_eq_true.mpr hall
            have hr : spec_single_token status (c :: cs) =
                (if status = (digitsToNat (c :: cs) : Int) then 1 else 0) := by
              unfold spec_single_token
              rw [if_neg h1, if_neg h2, if_pos ⟨List.cons_ne_nil c cs, hall2⟩]
            simp [status_match, htr, hr]
          · -- digits end before the token does
            have hc2mem : c2 ∈ c :: cs := by
              apply mem_of_mem_dropWhile (p := Char.isDigit)
              rw [hD]
              exact List.mem_cons_self c2 rest2
            have hc2ne : c2 ≠ ',' := fun he => hc (he ▸ hc2mem)
            have hcond : ¬((c :: cs).dropWhile Char.isDigit = [] ∨
                ((c :: cs).dropWhile Char.isDigit).head? = some ',') := by
              rw [hD]
              simp [hc2ne]
            have htr : tokResult status (c :: cs) =
                num_tail status (digitsToNat ((c :: cs).takeWhile Char.isDigit) : Int)
                  (c2 :: rest2) := by
              unfold tokResult
              rw [htok, if_neg h1, if_neg h2]
              simp only [hd, not_true_eq_false, if_false, ite_false]
              rw [if_neg hcond, hD]
            have hnall : ¬((c :: cs) ≠ [] ∧ (c :: cs).all Char.isDigit = true) := by
              rintro ⟨-, hall2⟩
              have hnil : (c :: cs).dropWhile Char.isDigit = [] :=
                List.dropWhile_eq_nil_iff.mpr (List.all_eq_true.mp hall2)
              rw [hD] at hnil
              exact List.noConfusion hnil
            have hr0 : spec_single_token status (c :: cs) =
                (match rangeSplit (c :: cs) with
                 | some (lo, hi) =>
                   if (lo : Int) ≤ status ∧ status ≤ (hi : Int) then 1 else 0
                 | none => -1) := by
              unfold spec_single_token
              rw [if_neg h1, if_neg h2, if_neg hnall]
            by_cases hdash : c2 = '-'
            · subst hdash
              cases rest2 with
              | nil =>
                have hnt : num_tail status
                    (digitsToNat ((c :: cs).takeWhile Char.isDigit) : Int)
                    ['-'] = some (-1) := by
                  unfold num_tail
                  simp
                have hrs : rangeSplit (c :: cs) = none := by
                  unfold rangeSplit
                  rw [hD]
                  simp
                simp [status_match, htr, hr0, hnt, hrs]
              | cons c3 t3 =>
                by_cases hd3 : c3.isDigit
                · rcases hD3 : (c3 :: t3).dropWhile Char.isDigit with _ | ⟨c4, t4⟩
                  · -- well-formed range token
                    have hall3 : ∀ x ∈ c3 :: t3, Char.isDigit x :=
                      List.dropWhile_eq_nil_iff.mp hD3
                    have htw3 : (c3 :: t3).takeWhile Char.isDigit = c3 :: t3 :=
                      List.takeWhile_eq_self_iff.mpr hall3
                    have hnt : num_tail status
                        (digitsToNat ((c :: cs).takeWhile Char.isDigit) : Int)
                        ('-' :: c3 :: t3) =
                        some (if (digitsToNat ((c :: cs).takeWhile Char.isDigit) : Int) ≤ status ∧
                            status ≤ (digitsToNat (c3 :: t3) : Int) then 1 else 0) := by
                      unfold num_tail
                      simp [hd3, hD3, htw3]
                    have htwne : (c :: cs).takeWhile Char.isDigit ≠ [] := by
                      rw [List.takeWhile_cons]
                      simp [hd]
                    have hall3' : (c3 :: t3).all Char.isDigit = true :=
                      List.all_eq_true.mpr hall3
                    have hrs : rangeSplit (c :: cs) =
                        some (digitsToNat ((c :: cs).takeWhile Char.isDigit),
                          digitsToNat (c3 :: t3)) := by
                      unfold rangeSplit
                      rw [hD]
                      simp [htwne, hall3']
                    simp [status_match, htr, hr0, hnt, hrs]
                  · -- garbage after the second integer
                    have hc4mem : c4 ∈ c3 :: t3 := by
                      apply mem_of_mem_dropWhile (p := Char.isDigit)
                      rw [hD3]
                      exact List.mem_cons_self c4 t4
                    have hc4cs : c4 ∈ c :: cs := by
                      apply mem_of_mem_dropWhile (p := Char.isDigit)
                      rw [hD]
                      exact List.mem_cons_of_mem _ hc4mem
                    have hc4ne : c4 ≠ ',' := fun he => hc (he ▸ hc4cs)
                    have hcond3 : ¬((c3 :: t3).dropWhile Char.isDigit = [] ∨
                        ((c3 :: t3).dropWhile Char.isDigit).head? = some ',') := by
                      rw [hD3]
                      simp [hc4ne]
                    have hcond3' : (c3 :: t3).dropWhile Char.isDigit ≠ [] ∧
                        ((c3 :: t3).dropWhile Char.isDigit).head? ≠ some ',' := by
                      push_neg at hcond3
                      exact hcond3
                    have hnt : num_tail status
                        (digitsToNat ((c :: cs).takeWhile Char.isDigit) : Int)
                        ('-' :: c3 :: t3) = some (-1) := by
                      unfold num_tail
                      simp only [hd3, not_true_eq_false, if_false, ite_false]
                      rw [if_neg (by decide), if_neg hcond3, if_pos hcond3']
                    have hnall3 : ¬((c3 :: t3).all Char.isDigit = true) := by
                      intro hall2
                      have hnil : (c3 :: t3).dropWhile Char.isDigit = [] :=
                        List.dropWhile_eq_nil_iff.mpr (List.all_eq_true.mp hall2)
                      rw [hD3] at hnil
                      exact List.noConfusion hnil
                    have hrs : rangeSplit (c :: cs) = none := by
                      unfold rangeSplit
                      rw [hD]
                      simp [hnall3]
                    simp [status_match, htr, hr0, hnt, hrs]
                · -- the dash is not followed by a digit
                  have hnt : num_tail status
                      (digitsToNat ((c :: cs).takeWhile Char.isDigit) : Int)
                      ('-' :: c3 :: t3) = some (-1) := by
                    unfold num_tail
                    simp [hd3]
                  have hnall3 : ¬((c3 :: t3).all Char.isDigit = true) := by
                    simp [hd3]
                  have hrs : rangeSplit (c :: cs) = none := by
                    unfold rangeSplit
                    rw [hD]
                    simp [hnall3]
                  simp [status_match, htr, hr0, hnt, hrs]
            · -- the character after the digits is not a dash
              have hnt : num_tail status
                  (digitsToNat ((c :: cs).takeWhile Char.isDigit) : Int)
                  (c2 :: rest2) = some (-1) := by
                unfold num_tail
                simp [hdash]
              have hrs : rangeSplit (c :: cs) = none :=
                rangeSplit_head_not_dash (c :: cs) c2 rest2 hD hdash
              simp [status_match, htr, hr0, hnt, hrs]
        · -- head not a digit: both sides give -1
          have htr : tokResult status (c :: cs) = some (-1) := by
            unfold tokResult
            rw [htok, if_neg h1, if_neg h2]
            simp [hd]
          have hr : spec_single_token status (c :: cs) = -1 := by
            unfold spec_single_token
            rw [if_neg h1, if_neg h2, if_neg (by simp [hd])]
            rw [rangeSplit_head_not_digit c cs hd]
          simp [status_match, htr, hr]

/-- Witness for the amended C3 at the concrete spec example: status 5
against the single token 3-7 evaluates to Match on both sides. -/
theorem C3_single_token_grammar_w :
    status_match 5 (some "3-7".toList) = spec_single_token 5 "3-7".toList ∧
    spec_single_token 5 "3-7".toList = 1 :=
  ⟨C3_single_token_grammar 5 "3-7".toList (by decide), by decide⟩

/-- The read phase never touches the write-side closed flag. -/
theorem read_phase_write_closed (p : pump_t) (aR : Bool) (e : stream_env)
    (p1 : pump_t) (h : read_phase p aR e = some p1) :
    p1.write_closed = p.write_closed := by
  unfold read_phase at h
  repeat' split at h
  all_goals simp_all
  all_goals rw [← h]

/-- The read phase never touches the exit-on-close flag. -/
theorem read_phase_eoc (p : pump_t) (aR : Bool) (e : stream_env)
    (p1 : pump_t) (h : read_phase p aR e = some p1) :
    p1.exit_on_close = p.exit_on_close := by
  unfold read_phase at h
  repeat' split at h
  all_goals simp_all
  all_goals rw [← h]

/-- The read-side hangup phase never touches the write-side closed flag. -/
theorem hup_phase_write_closed (p : pump_t) (e : stream_env) :
    (hup_phase p e).write_closed = p.write_closed := by
  unfold hup_phase
  split <;> rfl

/-- The read-side hangup phase never touches the exit-on-close flag. -/
theorem hup_phase_eoc (p : pump_t) (e : stream_env) :
    (hup_phase p e).exit_on_close = p.exit_on_close := by
  unfold hup_phase
  split <;> rfl

/-- The write-side error phase never touches the exit-on-close flag. -/
theorem werr_phase_eoc (p : pump_t) (e : stream_env) :
    (werr_phase p e).exit_on_close = p.exit_on_close := by
  unfold werr_phase
  split <;> rfl

/-- Without a write-side error event, the error phase does nothing. -/
theorem werr_phase_of_no_err (p : pump_t) (e : stream_env)
    (h : e.write_err = false) : werr_phase p e = p := by
  unfold werr_phase
  simp [h]

/-- The write phase never touches the exit-on-close flag. -/
theorem write_phase_eoc (p : pump_t) (aW : Bool) (e : stream_env)
    (p2 : pump_t) (o : List Nat) (h : write_phase p aW e = some (p2, o)) :
    p2.exit_on_close = p.exit_on_close := by
  unfold write_phase at h
  split at h
  · cases hwr : e.write_res with
    | none => rw [hwr] at h; exact absurd h (by simp)
    | some n =>
      rw [hwr] at h
      simp only [Option.some.injEq, Prod.mk.injEq] at h
      obtain ⟨hp, -⟩ := h
      split at hp <;> rw [← hp]
  · simp only [Option.some.injEq, Prod.mk.injEq] at h
    rw [← h.1]

/-- When the write phase itself closes the write side (retry.c:346-350),
it does so only with the read side closed and the cursor at the end of
the buffer. -/
theorem write_phase_close_cond (p : pump_t) (aW : Bool) (e : stream_env)
    (p2 : pump_t) (o : List Nat) (h : write_phase p aW e = some (p2, o))
    (hb : p.write_closed = false) (ha : p2.write_closed = true) :
    p2.read_closed = true ∧ p2.offset = p2.buf.length := by
  unfold write_phase at h
  split at h
  · cases hwr : e.write_res with
    | none => rw [hwr] at h; exact absurd h (by simp)
    | some n =>
      rw [hwr] at h
      simp only [Option.some.injEq, Prod.mk.injEq] at h
      obtain ⟨hp, -⟩ := h
      split at hp
      · rename_i hcond
        rw [← hp]
        simp only [Bool.and_eq_true, decide_eq_true_eq] at hcond
        exact ⟨hcond.1, hcond.2⟩
      · rw [← hp] at ha
        simp [hb] at ha
  · simp only [Option.some.injEq, Prod.mk.injEq] at h
    rw [← h.1] at ha
    rw [hb] at ha
    exact absurd ha (by simp)

/-- One stream's processing never touches its exit-on-close flag. -/
theorem stream_step_eoc (p : pump_t) (aR aW : Bool) (e : stream_env)
    (p' : pump_t) (out : List Nat)
    (h : stream_step p aR aW e = some (p', out)) :
    p'.exit_on_close = p.exit_on_close := by
  unfold stream_step at h
  cases hr : read_phase p aR e with
  | none => rw [hr] at h; exact absurd h (by simp)
  | some p1 =>
    simp only [hr] at h
    cases hw : write_phase (hup_phase p1 e) aW e with
    | none => rw [hw] at h; exact absurd h (by simp)
    | some pr =>
      obtain ⟨p2, o⟩ := pr
      simp only [hw, Option.some.injEq, Prod.mk.injEq] at h
      obtain ⟨hp, -⟩ := h
      rw [← hp]
      rw [werr_phase_eoc, write_phase_eoc _ _ _ _ _ hw, hup_phase_eoc,
        read_phase_eoc _ _ _ _ hr]

/-- A pump iteration that leaves the loop does so at the arming pass,
before poll, with the state untouched. -/
theorem pump_step_done_eq (ps : pumps_t) (e : pump_env) (ps1 : pumps_t)
    (h : pump_step ps e = .done ps1) : ps1 = ps ∧ pump_exit_now ps = true := by
  unfold pump_step at h
  split at h
  · rename_i hex
    simp only [pump_step_res.done.injEq] at h
    exact ⟨h.symm, hex⟩
  · split at h
    · exact pump_step_res.noConfusion h
    · cases h0 : stream_step ps.stdin (armed_read ps.stdin) (armed_write ps.stdin)
          e.stdin_ev with
      | none => simp [h0] at h
      | some pr0 =>
        obtain ⟨p0, o0⟩ := pr0
        simp only [h0] at h
        cases h1 : stream_step ps.stdout (armed_read ps.stdout)
            (armed_write ps.stdout) e.stdout_ev with
        | none => simp [h1] at h
        | some pr1 =>
          obtain ⟨p1, o1⟩ := pr1
          simp [h1] at h

/-- A continuing pump iteration preserves the stdin stream's
exit-on-close flag. -/
theorem pump_step_next_stdin_eoc (ps : pumps_t) (e : pump_env) (ps1 : pumps_t)
    (o0 o1 : List Nat) (h : pump_step ps e = .next ps1 o0 o1) :
    ps1.stdin.exit_on_close = ps.stdin.exit_on_close := by
  unfold pump_step at h
  split at h
  · exact pump_step_res.noConfusion h
  · split at h
    · exact pump_step_res.noConfusion h
    · cases h0 : stream_step ps.stdin (armed_read ps.stdin) (armed_write ps.stdin)
          e.stdin_ev with
      | none => simp [h0] at h
      | some pr0 =>
        obtain ⟨p0, oo0⟩ := pr0
        simp only [h0] at h
        cases h1 : stream_step ps.stdout (armed_read ps.stdout)
            (armed_write ps.stdout) e.stdout_ev with
        | none => simp [h1] at h
        | some pr1 =>
          obtain ⟨p1, oo1⟩ := pr1
          simp only [h1, pump_step_res.next.injEq] at h
          obtain ⟨hps, -, -⟩ := h
          rw [← hps]
          exact stream_step_eoc _ _ _ _ _ _ h0

/-- A pump that returns 0 stops exactly when its arming pass decides to
leave, and its loop never touches the stdin stream's exit-on-close
flag. -/
theorem pump_run_ok_final (ps : pumps_t) (envs : List pump_env) (f : pumps_t)
    (d0 d1 : List Nat) (h : pump_run ps envs = some (.ok f d0 d1)) :
    pump_exit_now f = true ∧ f.stdin.exit_on_close = ps.stdin.exit_on_close := by
  induction envs generalizing ps d0 d1 with
  | nil =>
    unfold pump_run at h
    split at h
    · rename_i hex
      simp only [Option.some.injEq, pump_outcome.ok.injEq] at h
      obtain ⟨hf, -, -⟩ := h
      subst hf
      exact ⟨hex, rfl⟩
    · exact Option.noConfusion h
  | cons e es ih =>
    unfold pump_run at h
    cases hstep : pump_step ps e with
    | done ps1 =>
      simp only [hstep, Option.some.injEq, pump_outcome.ok.injEq] at h
      obtain ⟨heq, hex⟩ := pump_step_done_eq ps e ps1 hstep
      obtain ⟨hf, -, -⟩ := h
      subst hf
      subst heq
      exact ⟨hex, rfl⟩
    | fail o0 o1 =>
      simp [hstep] at h
    | next ps1 o0 o1 =>
      simp only [hstep] at h
      cases hrec : pump_run ps1 es with
      | none => simp [hrec] at h
      | some oc =>
        cases oc with
        | ok f2 d0' d1' =>
          simp only [hrec, Option.some.injEq, pump_outcome.ok.injEq] at h
          obtain ⟨hf, -, -⟩ := h
          subst hf
          obtain ⟨hx, he⟩ := ih ps1 d0' d1' hrec
          exact ⟨hx, he.trans (pump_step_next_stdin_eoc ps e ps1 o0 o1 hstep)⟩
        | io_fail d0' d1' =>
          simp [hrec] at h

/-- When the stdin stream does not carry exit-on-close (as in every run
of `main`, which sets the flag only on the stdout stream), a pump can
only leave its loop with the stdout stream's read side closed. -/
theorem exit_now_stdout_read_closed (f : pumps_t) (h : pump_exit_now f = true)
    (he : f.stdin.exit_on_close = false) : f.stdout.read_closed = true := by
  by_contra hrc
  rw [Bool.not_eq_true] at hrc
  simp [pump_exit_now, early_exit, armed_read, armed_write, he, hrc] at h

/-- Claim C1: on every retry transition the output-capture stream's state
is NOT reset, contrary to the claim.  After any completed attempt (a
pump over any prepared state whose stdin stream lacks exit-on-close, as
in `main`), the state transformation actually performed between attempts
(retry.c:516 plus retry.c:501 and 504) leaves the output stream's
`read_closed` set and its cursor and captured bytes untouched, so the
next attempt's pump terminates at once through the early-exit condition,
reading nothing from the new child and delivering nothing. -/
theorem C1_output_state_not_reset (ps0 : pumps_t) (envs0 : List pump_env)
    (f : pumps_t) (d0 d1 : List Nat) (envs1 : List pump_env)
    (h0 : ps0.stdin.exit_on_close = false)
    (hp : pump_run (attempt_prep ps0) envs0 = some (.ok f d0 d1)) :
    (between_attempts f).stdout.read_closed = true ∧
    (between_attempts f).stdout.offset = f.stdout.offset ∧
    (between_attempts f).stdout.buf = f.stdout.buf ∧
    pump_run (between_attempts f) envs1 = some (.ok (between_attempts f) [] []) := by
  obtain ⟨hex, heoc⟩ := pump_run_ok_final _ _ _ _ _ hp
  have hrc : f.stdout.read_closed = true :=
    exit_now_stdout_read_closed f hex (heoc.trans h0)
  refine ⟨hrc, rfl, rfl, ?_⟩
  apply pump_run_of_exit_now
  simp [between_attempts, attempt_prep, pump_exit_now, early_exit, hrc]

/-- Witness for C1: a concrete first attempt (child closes its stdout
with no data), after which the retry's pump exits immediately even
though the new child offers a byte. -/
theorem C1_output_state_not_reset_w :
    (between_attempts f_hup).stdout.read_closed = true ∧
    (between_attempts f_hup).stdout.offset = f_hup.stdout.offset ∧
    (between_attempts f_hup).stdout.buf = f_hup.stdout.buf ∧
    pump_run (between_attempts f_hup) [pe_offer66] =
      some (.ok (between_attempts f_hup) [] []) :=
  C1_output_state_not_reset pumps_init [pe_hup] f_hup [] [] [pe_offer66] rfl
    (by decide)

/-- Claim C6: the inter-attempt transformation does rewind the
input-relay stream's delivery cursor to 0 and retains its captured bytes
(retry.c:516), but the claimed replay to the next attempt's child never
happens: whenever the previous attempt left the output stream's read
side closed (which every completed attempt does), the next pump returns
at once and delivers zero bytes to the new child's stdin, whatever the
environment offers. -/
theorem C6_rewind_without_replay (f : pumps_t) (envs : List pump_env)
    (h : f.stdout.read_closed = true) :
    (between_attempts f).stdin.offset = 0 ∧
    (between_attempts f).stdin.buf = f.stdin.buf ∧
    pump_run (between_attempts f) envs = some (.ok (between_attempts f) [] []) := by
  refine ⟨rfl, rfl, ?_⟩
  apply pump_run_of_exit_now
  simp [between_attempts, attempt_prep, pump_exit_now, early_exit, h]

/-- Witness for C6: after a first attempt that captured stdin byte 72
with one byte already delivered, the cursor is rewound and the buffer
kept, yet the next pump delivers nothing. -/
theorem C6_rewind_without_replay_w :
    (between_attempts f_out65).stdin.offset = 0 ∧
    (between_attempts f_out65).stdin.buf = f_out65.stdin.buf ∧
    pump_run (between_attempts f_out65) [pe_offer66] =
      some (.ok (between_attempts f_out65) [] []) :=
  C6_rewind_without_replay f_out65 [pe_offer66] rfl

/-- Claim C7: whenever an attempt's child terminates by a signal with
number n, the run ends immediately with process exit code n + 128 and no
further attempt is made, regardless of the configured criteria, the
remaining attempt budget, and any environments queued for later
attempts. -/
theorem C7_signal_terminates_run (cfg : run_config) (ps : pumps_t)
    (times status : Int) (env : attempt_env) (envs : List attempt_env)
    (n : Int) (htimes : ¬ times = 0) (hspawn : env.spawn_fail = false)
    (f : pumps_t) (d0 d1 : List Nat)
    (hpump : pump_run (attempt_prep ps) env.pump_envs = some (.ok f d0 d1))
    (hw : env.wait = .signaled n) :
    retry_run cfg ps times status (env :: envs) = some (n + 128, d1) := by
  simp [retry_run, run_step, htimes, hspawn, hpump, hw]

/-- Witness for C7 at the spec's own example: a child killed by signal 9
on the first attempt ends the run with exit code 137, even with an
unlimited budget and another attempt's environment queued. -/
theorem C7_signal_terminates_run_w :
    retry_run cfg_us pumps_init (-1) 0 [env_sig9, env_sig9] =
      some (9 + 128, []) ∧ ((9 : Int) + 128 = 137) :=
  ⟨C7_signal_terminates_run cfg_us pumps_init (-1) 0 env_sig9 [env_sig9] 9
    (by decide) rfl f_hup [] [] (by decide) rfl, by decide⟩

/-- Counterexample to claim C8 as stated: a failed reap terminates the
run with the fixed failure code 1 (retry.c:527-534), not with an
OS-error code distinct from it: EX_OSERR is 71. -/
theorem C8_wait_fail_counterexample :
    retry_run cfg_us pumps_init (-1) 0 [env_waitfail] = some (1, []) ∧
    ((1 : Int) ≠ 71) :=
  ⟨by decide, by decide⟩

/-- Claim C8 as amended: a reap failure other than an interrupted wait
terminates the run fatally with the fixed failure code 1, while the
OS-error code EX_OSERR = 71 is used instead when the reap succeeds but
reports a status that is neither a normal exit nor a signal
(retry.c:581-586). -/
theorem C8_wait_fail_exit_codes (cfg : run_config) (ps : pumps_t)
    (times status : Int) (env : attempt_env) (envs : List attempt_env)
    (htimes : ¬ times = 0) (hspawn : env.spawn_fail = false)
    (f : pumps_t) (d0 d1 : List Nat)
    (hpump : pump_run (attempt_prep ps) env.pump_envs = some (.ok f d0 d1)) :
    (env.wait = .wait_fail →
      retry_run cfg ps times status (env :: envs) = some (1, d1)) ∧
    (env.wait = .other →
      retry_run cfg ps times status (env :: envs) = some (71, d1)) := by
  constructor <;> intro hw <;>
    simp [retry_run, run_step, htimes, hspawn, hpump, hw]

/-- Witness for the amended C8 at a concrete failed reap. -/
theorem C8_wait_fail_exit_codes_w :
    (env_waitfail.wait = .wait_fail →
      retry_run cfg_us pumps_init (-1) 0 [env_waitfail] = some (1, [])) ∧
    (env_waitfail.wait = .other →
      retry_run cfg_us pumps_init (-1) 0 [env_waitfail] = some (71, [])) :=
  C8_wait_fail_exit_codes cfg_us pumps_init (-1) 0 env_waitfail []
    (by decide) rfl f_hup [] [] (by decide)

/-- Claim C5: in a two-attempt run (first child writes byte 65 and exits
1, second child exits 0 with byte 66 on offer), the real standard output
receives the byte 65 captured from the first, non-matching attempt: the
matching attempt's pump never reads its child's output (the byte 66 is on
offer in its environment and is never taken), so the run's single stdout
delivery is not the satisfying attempt's output. -/
theorem C5_stale_output_delivered :
    retry_run cfg_us pumps_init (-1) 0 [env_fail65, env_ok66] = some (0, [65]) ∧
    env_ok66.pump_envs = [pe_offer66] ∧
    pe_offer66.stdout_ev.read_res = some [66] ∧
    ([65] : List Nat) ≠ [66] :=
  ⟨by decide, rfl, rfl, by decide⟩

/-- Counterexample to claim C4 as stated: a POLLERR on the write
descriptor of a stream (retry.c:354-359) sets `write_closed` while the
stream's read side is still open and its byte is still undelivered —
`write_closed` became true before `read_closed` and before the cursor
reached the length. -/
theorem C4_sink_error_counterexample :
    pump_step c4_ps c4_env = .next c4_ps1 [] [] ∧
    c4_ps.stdin.write_closed = false ∧
    c4_ps1.stdin.write_closed = true ∧
    c4_ps1.stdin.read_closed = false ∧
    c4_ps1.stdin.offset ≠ c4_ps1.stdin.buf.length :=
  ⟨by decide, rfl, rfl, rfl, by decide⟩

/-- Claim C4 as amended: in any processing step of a stream,
`write_closed` goes from false to true only when either the read side is
closed and the cursor has reached the length (all captured bytes
delivered, retry.c:346-350), or the environment reported an
error/invalid condition on the sink descriptor (retry.c:354-359). -/
theorem C4_write_close_discipline (p : pump_t) (aR aW : Bool)
    (e : stream_env) (p' : pump_t) (out : List Nat)
    (h : stream_step p aR aW e = some (p', out))
    (hb : p.write_closed = false) (ha : p'.write_closed = true) :
    (p'.read_closed = true ∧ p'.offset = p'.buf.length) ∨ e.write_err = true := by
  by_cases hwe : e.write_err = true
  · exact Or.inr hwe
  · left
    rw [Bool.not_eq_true] at hwe
    unfold stream_step at h
    cases hr : read_phase p aR e with
    | none => rw [hr] at h; exact absurd h (by simp)
    | some p1 =>
      simp only [hr] at h
      cases hw : write_phase (hup_phase p1 e) aW e with
      | none => rw [hw] at h; exact absurd h (by simp)
      | some pr =>
        obtain ⟨p2, o⟩ := pr
        simp only [hw, Option.some.injEq, Prod.mk.injEq] at h
        obtain ⟨hp, -⟩ := h
        rw [werr_phase_of_no_err p2 e hwe] at hp
        subst hp
        apply write_phase_close_cond _ _ _ _ _ hw _ ha
        rw [hup_phase_write_closed, read_phase_write_closed p aR e p1 hr]
        exact hb

/-- Witness for the amended C4: a drained stream whose sink accepts the
empty pending slice closes its write side through the legitimate
condition. -/
theorem C4_write_close_discipline_w :
    ((⟨[], 0, true, true, false, true⟩ : pump_t).read_closed = true ∧
      (⟨[], 0, true, true, false, true⟩ : pump_t).offset =
        (⟨[], 0, true, true, false, true⟩ : pump_t).buf.length) ∨
    ({ ev_none with pollout := true } : stream_env).write_err = true :=
  C4_write_close_discipline ⟨[], 0, true, false, false, true⟩ false true
    { ev_none with pollout := true } ⟨[], 0, true, true, false, true⟩ []
    (by decide) rfl rfl
